import Mathlib

/-!
Verification of the nfl-fantasy scoring pipeline.

A shallow embedding of the Python sources (`scoring.py`, `summary.py`,
`data_processor.py`, `main.py`).  Dict-like stat rows become association
lists from column names to rational values; `polars` DataFrames become
lists of records; `group_by` plus aggregation becomes "deduplicated key
list, mapped to the aggregate over the matching rows"; left/outer joins
become lookups with a zero default over the appropriate key set.
Python floats are modelled as exact rationals.
-/

namespace NFLFantasy

/-- A stat row as the Python scoring code sees it: a dict-like mapping of
column names to numeric values, modelled as an association list. -/
abbrev Row := List (String × ℚ)

/-- Models Python `row.get(key, 0)`: the value stored at `k`, defaulting to 0. -/
def Row.get (r : Row) (k : String) : ℚ := (List.lookup k r).getD 0

/-- Models Python `row.get(key, default)` with an explicit default value. -/
def Row.getF (r : Row) (k : String) (d : ℚ) : ℚ := (List.lookup k r).getD d

/-- `porchcrew_offense_points` from `scoring.py`: weighted linear sum of the
offensive stat fields, every field read with a zero default. -/
def porchcrew_offense_points (row : Row) : ℚ :=
  0.04 * row.get "passing_yards"
  + 6 * row.get "passing_tds"
  + (-3) * row.get "passing_interceptions"
  + 2 * row.get "passing_2pt_conversions"
  + 2 * row.get "pass_td_40p"
  + 3 * row.get "pass_td_50p"
  + 0.10 * row.get "rushing_yards"
  + 6 * row.get "rushing_tds"
  + 2 * row.get "rushing_2pt_conversions"
  + 2 * row.get "rush_td_40p"
  + 3 * row.get "rush_td_50p"
  + 0.10 * row.get "receiving_yards"
  + 1 * row.get "receptions"
  + 6 * row.get "receiving_tds"
  + 2 * row.get "receiving_2pt_conversions"
  + 2 * row.get "rec_td_40p"
  + 3 * row.get "rec_td_50p"
  + 6 * row.get "special_teams_tds"
  + 6 * row.get "def_tds"
  + 6 * row.get "fumble_recovery_tds"
  + 1 * row.get "def_safeties"
  + (-2) * (row.get "rushing_fumbles_lost" + row.get "receiving_fumbles_lost"
      + row.get "sack_fumbles_lost")

/-- `porchcrew_kicker_points` from `scoring.py`.  `total_missed` uses the
explicit `fg_missed` field when present, else the sum of the six
distance-band miss fields, exactly as `row.get("fg_missed", band_sum)`. -/
def porchcrew_kicker_points (row : Row) : ℚ :=
  let fg_made_0_39 :=
    row.get "fg_made_0_19" + row.get "fg_made_20_29" + row.get "fg_made_30_39"
  let miss_0_19 := row.get "fg_missed_0_19"
  let miss_20_29 := row.get "fg_missed_20_29"
  let miss_30_39 := row.get "fg_missed_30_39"
  let miss_40_49 := row.get "fg_missed_40_49"
  let miss_50_59 := row.get "fg_missed_50_59"
  let miss_60 := row.get "fg_missed_60_"
  let total_missed := row.getF "fg_missed"
    (miss_0_19 + miss_20_29 + miss_30_39 + miss_40_49 + miss_50_59 + miss_60)
  1 * row.get "pat_made"
  + 3 * fg_made_0_39
  + 4 * row.get "fg_made_40_49"
  + 5 * row.get "fg_made_50_59"
  + 6 * row.get "fg_made_60_"
  + (-1) * total_missed
  + (-3) * (miss_0_19 + miss_20_29 + miss_30_39)
  + (-2) * miss_40_49

/-- `dst_points_allowed_component` from `scoring.py`: the ESPN PA* bucket
if-chain.  The argument keeps Python's duck typing (any number compares),
so it is taken over ℚ; every branch returns an integer. -/
def dst_points_allowed_component (points_allowed : ℚ) : ℤ :=
  let pa := points_allowed
  if pa = 0 then 8
  else if 1 ≤ pa ∧ pa ≤ 6 then 4
  else if 7 ≤ pa ∧ pa ≤ 13 then 3
  else if 14 ≤ pa ∧ pa ≤ 17 then 1
  else if 18 ≤ pa ∧ pa ≤ 27 then 0
  else if 28 ≤ pa ∧ pa ≤ 34 then -1
  else if 35 ≤ pa ∧ pa ≤ 45 then -3
  else -5

/-- `dst_yards_allowed_component` from `scoring.py`: the ESPN YA* bucket
if-chain. -/
def dst_yards_allowed_component (yards_allowed : ℚ) : ℤ :=
  let ya := yards_allowed
  if ya < 100 then 8
  else if ya < 200 then 5
  else if ya < 300 then 3
  else if ya < 350 then 1
  else if ya < 450 then 0
  else if ya < 500 then -1
  else if ya < 550 then -2
  else -3

/-- `porchcrew_dst_points` from `scoring.py`: linear defensive/special-teams
terms plus the two bucket components. -/
def porchcrew_dst_points (row : Row) : ℚ :=
  2 * row.get "sacks"
  + 2 * row.get "blocked_kicks"
  + 2 * row.get "interceptions"
  + 2 * row.get "fumbles_recovered"
  + 5 * row.get "safeties"
  + 6 * row.get "int_td"
  + 6 * row.get "fum_ret_td"
  + 6 * row.get "kr_td"
  + 6 * row.get "pr_td"
  + 6 * row.get "blk_kick_td"
  + 2 * row.get "two_pt_returns"
  + 1 * row.get "one_pt_safeties"
  + (dst_points_allowed_component (row.get "points_allowed") : ℚ)
  + (dst_yards_allowed_component (row.get "yards_allowed") : ℚ)

/-- The column names read (with zero default) by `porchcrew_offense_points`. -/
def offense_read_keys : List String :=
  ["passing_yards", "passing_tds", "passing_interceptions",
   "passing_2pt_conversions", "pass_td_40p", "pass_td_50p",
   "rushing_yards", "rushing_tds", "rushing_2pt_conversions",
   "rush_td_40p", "rush_td_50p",
   "receiving_yards", "receptions", "receiving_tds",
   "receiving_2pt_conversions", "rec_td_40p", "rec_td_50p",
   "special_teams_tds", "def_tds", "fumble_recovery_tds", "def_safeties",
   "rushing_fumbles_lost", "receiving_fumbles_lost", "sack_fumbles_lost"]

/-- The column names read by `porchcrew_kicker_points`. -/
def kicker_read_keys : List String :=
  ["pat_made", "fg_made_0_19", "fg_made_20_29", "fg_made_30_39",
   "fg_made_40_49", "fg_made_50_59", "fg_made_60_",
   "fg_missed_0_19", "fg_missed_20_29", "fg_missed_30_39",
   "fg_missed_40_49", "fg_missed_50_59", "fg_missed_60_", "fg_missed"]

/-- The column names read by `porchcrew_dst_points`. -/
def dst_read_keys : List String :=
  ["sacks", "blocked_kicks", "interceptions", "fumbles_recovered",
   "safeties", "int_td", "fum_ret_td", "kr_td", "pr_td", "blk_kick_td",
   "two_pt_returns", "one_pt_safeties", "points_allowed", "yards_allowed"]

/-- The kicker formula restated in the words of the spec (section 4.3):
extra points ×1; made 0-39 band ×3; 40-49 ×4; 50-59 ×5; 60+ ×6; a flat -1
per miss (explicit `fg_missed` total if present, else the band-miss sum),
plus an additional -3 per 0-39-band miss and an additional -2 per
40-49-band miss; 50+ misses only the flat -1. -/
def spec_kicker_points (row : Row) : ℚ :=
  row.get "pat_made"
  + 3 * (row.get "fg_made_0_19" + row.get "fg_made_20_29" + row.get "fg_made_30_39")
  + 4 * row.get "fg_made_40_49"
  + 5 * row.get "fg_made_50_59"
  + 6 * row.get "fg_made_60_"
  - (row.getF "fg_missed"
      (row.get "fg_missed_0_19" + row.get "fg_missed_20_29" + row.get "fg_missed_30_39"
        + row.get "fg_missed_40_49" + row.get "fg_missed_50_59" + row.get "fg_missed_60_"))
  - 3 * (row.get "fg_missed_0_19" + row.get "fg_missed_20_29" + row.get "fg_missed_30_39")
  - 2 * row.get "fg_missed_40_49"

/-- The points-allowed bucket table as the spec states it (section 4.3),
over non-negative integers. -/
def spec_pa_bucket (pa : ℕ) : ℤ :=
  if pa = 0 then 8
  else if pa ≤ 6 then 4
  else if pa ≤ 13 then 3
  else if pa ≤ 17 then 1
  else if pa ≤ 27 then 0
  else if pa ≤ 34 then -1
  else if pa ≤ 45 then -3
  else -5

/-- The yards-allowed bucket table as the spec states it (section 4.3). -/
def spec_ya_bucket (ya : ℕ) : ℤ :=
  if ya < 100 then 8
  else if ya < 200 then 5
  else if ya < 300 then 3
  else if ya < 350 then 1
  else if ya < 450 then 0
  else if ya < 500 then -1
  else if ya < 550 then -2
  else -3

/-! ### Summary statistics (`summary.py`) -/

/-- The statistics dictionary returned by `_calculate_stats_from_df`.
`stddev_sq_points` holds the square of the reported standard deviation
(the code reports `sqrt` of this value, with `None` mapped to `0.0`;
squaring commutes with that default since `sqrt 0 = 0`).  The reported
real-valued standard deviation itself is `reported_stddev` below. -/
structure SummaryStats where
  num_games : ℕ
  mean_points : ℚ
  median_points : ℚ
  max_points : ℚ
  min_points : ℚ
  stddev_sq_points : ℚ
  mad_points : ℚ
  nuclear_games : ℕ
  boom_games : ℕ
  bust_games : ℕ
deriving DecidableEq

/-- The all-zero statistics dictionary from the empty-input branch of
`_calculate_stats_from_df`. -/
def zeroSummaryStats : SummaryStats :=
  { num_games := 0, mean_points := 0, median_points := 0, max_points := 0,
    min_points := 0, stddev_sq_points := 0, mad_points := 0,
    nuclear_games := 0, boom_games := 0, bust_games := 0 }

/-- Insert into a sorted list of rationals (ascending). -/
def insertSorted (x : ℚ) : List ℚ → List ℚ
  | [] => [x]
  | y :: ys => if x ≤ y then x :: y :: ys else y :: insertSorted x ys

/-- Sort a list of rationals ascending (models the sort underlying the
polars `median`). -/
def sortQ : List ℚ → List ℚ
  | [] => []
  | x :: xs => insertSorted x (sortQ xs)

/-- polars `Series.median`: middle element of the sorted values for odd
length, mean of the two middle elements for even length (0 on empty,
a case the code never reaches because of its early return). -/
def medianQ (xs : List ℚ) : ℚ :=
  let s := sortQ xs
  if xs.length = 0 then 0
  else if xs.length % 2 = 1 then s.getD (xs.length / 2) 0
  else (s.getD (xs.length / 2 - 1) 0 + s.getD (xs.length / 2) 0) / 2

/-- polars `Series.max` on a non-empty series (0 on empty, never reached). -/
def maxQ (xs : List ℚ) : ℚ :=
  match xs with
  | [] => 0
  | x :: rest => rest.foldl max x

/-- polars `Series.min` on a non-empty series (0 on empty, never reached). -/
def minQ (xs : List ℚ) : ℚ :=
  match xs with
  | [] => 0
  | x :: rest => rest.foldl min x

/-- polars `Series.std` (sample variance, ddof = 1): `none` when fewer than
2 data points, matching the code comment "std() returns None when there's
only 1 data point"; otherwise the sample variance.  The polars value is the
square root of this. -/
def sampleVar (xs : List ℚ) : Option ℚ :=
  if xs.length < 2 then none
  else
    let m := xs.sum / xs.length
    some ((xs.map (fun x => (x - m) ^ 2)).sum / (xs.length - 1))

/-- The square of the standard deviation the code reports: `float(std)` when
`std` is not `None`, else `0.0`. -/
def stddevSq (xs : List ℚ) : ℚ := (sampleVar xs).getD 0

/-- The real-valued standard deviation `_calculate_stats_from_df` stores in
`stddev_points`: the square root of the sample variance, with the code's
`None -> 0.0` default (which commutes with the square root). -/
noncomputable def reported_stddev (xs : List ℚ) : ℝ := Real.sqrt (stddevSq xs)

/-- `_calculate_stats_from_df` from `summary.py`, acting on the
`fantasy_points` column of the input frame (the only column it reads).
Empty input takes the early all-zero return. -/
def calculateStatsFromDf (points : List ℚ) : SummaryStats :=
  if points.length = 0 then zeroSummaryStats
  else
    let num_games := points.length
    let median_points := medianQ points
    let mad_points :=
      if 0 < num_games then medianQ (points.map (fun x => |x - median_points|)) else 0
    { num_games := num_games
      mean_points := points.sum / num_games
      median_points := median_points
      max_points := maxQ points
      min_points := minQ points
      stddev_sq_points := stddevSq points
      mad_points := mad_points
      nuclear_games := (points.filter (fun x => decide (20 ≤ x))).length
      boom_games := (points.filter (fun x => decide (15 ≤ x))).length
      bust_games := (points.filter (fun x => decide (x < 10))).length }

/-- One scored row as `calculate_summary_stats` sees it: the identifier
column it filters on, the week, and the fantasy points. -/
structure ScoredEntry where
  ident : String
  week : ℤ
  fantasy_points : ℚ
deriving DecidableEq

/-- The row window `calculate_summary_stats` selects: filter to the
requested identifier value, then (when a week list is given) to the listed
weeks; the `fantasy_points` column of the result. -/
def summaryWindow (df : List ScoredEntry) (identifier_value : String)
    (week_list : Option (List ℤ)) : List ℚ :=
  let filtered := df.filter (fun r => decide (r.ident = identifier_value))
  let filtered :=
    match week_list with
    | none => filtered
    | some ws => filtered.filter (fun r => decide (r.week ∈ ws))
  filtered.map (·.fantasy_points)

/-- `calculate_summary_stats` from `summary.py`. -/
def calculate_summary_stats (df : List ScoredEntry) (identifier_value : String)
    (week_list : Option (List ℤ)) : SummaryStats :=
  calculateStatsFromDf (summaryWindow df identifier_value week_list)

/-! ### Play-by-play data model (`data_processor.py`) -/

/-- One play-by-play record with the columns `data_processor.py` reads.
0/1 flag columns become `Bool`; nullable string columns become
`Option String`.  `passFlag` and `rushFlag` are the nflverse `pass` and
`rush` columns. -/
structure Play where
  season : ℤ
  week : ℤ
  game_id : String
  home_team : String
  away_team : String
  posteam : String
  defteam : String
  return_team : String
  td_team : String
  passFlag : Bool
  rushFlag : Bool
  rush_attempt : Bool
  touchdown : Bool
  pass_touchdown : Bool
  return_touchdown : Bool
  interception : Bool
  fumble : Bool
  fumble_lost : Bool
  sack : Bool
  safety : Bool
  punt_blocked : Bool
  kickoff_attempt : Bool
  punt_attempt : Bool
  defensive_two_point_conv : Bool
  defensive_extra_point_conv : Bool
  field_goal_result : Option String
  extra_point_result : Option String
  fumble_recovery_1_team : Option String
  fumble_recovery_2_team : Option String
  play_type : Option String
  yards_gained : ℤ
  total_home_score : ℤ
  total_away_score : ℤ
  passer_id : Option String
  rusher_id : Option String
  receiver_id : Option String
deriving DecidableEq

/-- A (season, week, player) composite key of the long-TD bonus tables. -/
structure PKey where
  season : ℤ
  week : ℤ
  pid : String
deriving DecidableEq

/-- A (season, week, team) composite key of the D/ST tables. -/
structure DstKey where
  season : ℤ
  week : ℤ
  team : String
deriving DecidableEq

/-- A polars `group_by(key).agg(len)`-style aggregation: one output row per
distinct key of the input, holding the number of matching input rows. -/
def groupCount {κ : Type} [DecidableEq κ] (l : List Play) (key : Play → κ) :
    List (κ × ℤ) :=
  ((l.map key).dedup).map
    (fun k => (k, ((l.filter (fun p => decide (key p = k))).length : ℤ)))

/-- A polars `group_by(key).agg(col(v).sum)`-style aggregation. -/
def groupSum {κ : Type} [DecidableEq κ] (l : List Play) (key : Play → κ)
    (v : Play → ℤ) : List (κ × ℤ) :=
  ((l.map key).dedup).map
    (fun k => (k, ((l.filter (fun p => decide (key p = k))).map v).sum))

/-- A polars `group_by(key)` summing two flag columns at once, as the three
long-TD aggregations in `calculate_long_td_bonuses` do. -/
def groupSum2 {κ : Type} [DecidableEq κ] (l : List Play) (key : Play → κ)
    (f g : Play → ℤ) : List (κ × ℤ × ℤ) :=
  ((l.map key).dedup).map
    (fun k => (k, ((l.filter (fun p => decide (key p = k))).map f).sum,
                  ((l.filter (fun p => decide (key p = k))).map g).sum))

/-- The `ptd40_flag` column: pass play, touchdown, 40+ yards, cast to int. -/
def ptd40_flag (p : Play) : ℤ :=
  if p.passFlag ∧ p.touchdown ∧ 40 ≤ p.yards_gained then 1 else 0

/-- The `ptd50_flag` column. -/
def ptd50_flag (p : Play) : ℤ :=
  if p.passFlag ∧ p.touchdown ∧ 50 ≤ p.yards_gained then 1 else 0

/-- The `rtd40_flag` column: rush attempt, touchdown, 40+ yards. -/
def rtd40_flag (p : Play) : ℤ :=
  if p.rush_attempt ∧ p.touchdown ∧ 40 ≤ p.yards_gained then 1 else 0

/-- The `rtd50_flag` column. -/
def rtd50_flag (p : Play) : ℤ :=
  if p.rush_attempt ∧ p.touchdown ∧ 50 ≤ p.yards_gained then 1 else 0

/-- The `retd40_flag` column: pass play, passing touchdown, non-null
receiver, 40+ yards. -/
def retd40_flag (p : Play) : ℤ :=
  if p.passFlag ∧ p.pass_touchdown ∧ p.receiver_id.isSome ∧ 40 ≤ p.yards_gained
  then 1 else 0

/-- The `retd50_flag` column. -/
def retd50_flag (p : Play) : ℤ :=
  if p.passFlag ∧ p.pass_touchdown ∧ p.receiver_id.isSome ∧ 50 ≤ p.yards_gained
  then 1 else 0

/-- The `qb` table of `calculate_long_td_bonuses`: plays with a non-null
passer, grouped by (season, week, passer_id), summing the two pass-TD
flags into (`pass_td_40p`, `pass_td_50p`). -/
def qb_long_tds (pbp : List Play) : List (PKey × ℤ × ℤ) :=
  groupSum2 (pbp.filter (fun p => p.passer_id.isSome))
    (fun p => ⟨p.season, p.week, p.passer_id.getD ""⟩) ptd40_flag ptd50_flag

/-- The `rb` table: plays with a non-null rusher, grouped by
(season, week, rusher_id), summing the rush-TD flags. -/
def rb_long_tds (pbp : List Play) : List (PKey × ℤ × ℤ) :=
  groupSum2 (pbp.filter (fun p => p.rusher_id.isSome))
    (fun p => ⟨p.season, p.week, p.rusher_id.getD ""⟩) rtd40_flag rtd50_flag

/-- The `wr` table: plays with a non-null receiver, grouped by
(season, week, receiver_id), summing the receiving-TD flags. -/
def wr_long_tds (pbp : List Play) : List (PKey × ℤ × ℤ) :=
  groupSum2 (pbp.filter (fun p => p.receiver_id.isSome))
    (fun p => ⟨p.season, p.week, p.receiver_id.getD ""⟩) retd40_flag retd50_flag

/-- `calculate_long_td_bonuses`: the dictionary of the three tables. -/
def calculate_long_td_bonuses (pbp : List Play) :
    List (PKey × ℤ × ℤ) × List (PKey × ℤ × ℤ) × List (PKey × ℤ × ℤ) :=
  (qb_long_tds pbp, rb_long_tds pbp, wr_long_tds pbp)

/-! ### Player-stat reconciliation (`join_stats_with_long_tds`) -/

/-- One externally supplied weekly player stat row: the join keys, the
position code used for dispatch, and the remaining stat columns. -/
structure PStatRow where
  season : ℤ
  week : ℤ
  player_id : String
  position : Option String
  stats : Row
deriving DecidableEq

/-- Lookup of the two bonus counts for a (season, week, player) key in one
long-TD table, defaulting to (0, 0): the combined effect of the left join
and the `fill_null(0)` that follows it (and of the skipped join plus
zero-literal columns when the table is empty). -/
def bonusLookup (t : List (PKey × ℤ × ℤ)) (season week : ℤ) (pid : String) :
    ℤ × ℤ :=
  match t.find? (fun e => decide (e.1 = ⟨season, week, pid⟩)) with
  | some e => e.2
  | none => (0, 0)

/-- A player stat row after `join_stats_with_long_tds`: the original row
plus the six long-TD bonus columns, all defined and zero-defaulted. -/
structure JoinedRow where
  base : PStatRow
  pass_td_40p : ℤ
  pass_td_50p : ℤ
  rush_td_40p : ℤ
  rush_td_50p : ℤ
  rec_td_40p : ℤ
  rec_td_50p : ℤ
deriving DecidableEq

/-- `join_stats_with_long_tds` from `data_processor.py`: left-join each of
the three long-TD tables (keys renamed to `player_id`) onto the stat
table on (season, week, player_id) and fill the nulls with 0.  Each left
join keeps exactly the stat rows (the aggregation keys are unique), so the
result maps each stat row to itself plus the looked-up bonuses. -/
def join_stats_with_long_tds (stats : List PStatRow)
    (qb rb wr : List (PKey × ℤ × ℤ)) : List JoinedRow :=
  stats.map (fun s =>
    let qbv := bonusLookup qb s.season s.week s.player_id
    let rbv := bonusLookup rb s.season s.week s.player_id
    let wrv := bonusLookup wr s.season s.week s.player_id
    { base := s, pass_td_40p := qbv.1, pass_td_50p := qbv.2,
      rush_td_40p := rbv.1, rush_td_50p := rbv.2,
      rec_td_40p := wrv.1, rec_td_50p := wrv.2 })

/-- The dict a joined row presents to the scoring functions: the six bonus
columns (which, per the drop-before-join policy, shadow any same-named
column of the source row) together with the original stat columns. -/
def JoinedRow.toRow (j : JoinedRow) : Row :=
  [("pass_td_40p", (j.pass_td_40p : ℚ)), ("pass_td_50p", (j.pass_td_50p : ℚ)),
   ("rush_td_40p", (j.rush_td_40p : ℚ)), ("rush_td_50p", (j.rush_td_50p : ℚ)),
   ("rec_td_40p", (j.rec_td_40p : ℚ)), ("rec_td_50p", (j.rec_td_50p : ℚ))]
  ++ j.base.stats

/-! ### Position dispatch (`calculate_fantasy_points`) -/

/-- Python `str.upper()`: upper-case every character. -/
def upperStr (s : String) : String := ⟨s.data.map Char.toUpper⟩

/-- The position normalisation in `calculate_row_points`:
`pos = row_dict.get("position") or ""` then `pos.upper() if pos else ""`. -/
def normalizePosition (p : Option String) : String :=
  match p with
  | none => ""
  | some s => if s = "" then "" else upperStr s

/-- `calculate_row_points` from `data_processor.py`: dispatch on the
upper-cased position code; QB/RB/WR/TE to the offense formula, K to the
kicker formula, anything else to the offense formula as the default. -/
def calculate_row_points (position : Option String) (row : Row) : ℚ :=
  let pos := normalizePosition position
  if pos = "QB" ∨ pos = "RB" ∨ pos = "WR" ∨ pos = "TE" then
    porchcrew_offense_points row
  else if pos = "K" then porchcrew_kicker_points row
  else porchcrew_offense_points row

/-- `calculate_fantasy_points`: score every joined row from its dict and
attach the result as the `fantasy_points` column. -/
def calculate_fantasy_points (rows : List JoinedRow) : List (JoinedRow × ℚ) :=
  rows.map (fun j => (j, calculate_row_points j.base.position j.toRow))

/-! ### D/ST aggregation (`data_processor.py`) -/

/-- The (season, week, defteam) key of a play. -/
def dstKeyOf (p : Play) : DstKey := ⟨p.season, p.week, p.defteam⟩

/-- Lookup with zero default in a single-column keyed table: the combined
effect of a join on the key plus `fill_null(0)`. -/
def tableLookup (t : List (DstKey × ℤ)) (k : DstKey) : ℤ :=
  match t.find? (fun e => decide (e.1 = k)) with
  | some e => e.2
  | none => 0

/-- The `sacks` table of `calculate_dst_basic_stats`: plays with
`sack == 1` grouped by (season, week, defteam); summing the sack flag over
that filter is its count. -/
def sacksTable (pbp : List Play) : List (DstKey × ℤ) :=
  groupCount (pbp.filter (fun p => p.sack)) dstKeyOf

/-- The `interceptions` table: interception plays where the defending team
differs from the team in possession. -/
def interceptionsTable (pbp : List Play) : List (DstKey × ℤ) :=
  groupCount (pbp.filter (fun p => p.interception && decide (p.defteam ≠ p.posteam)))
    dstKeyOf

/-- The `safeties` table. -/
def safetiesTable (pbp : List Play) : List (DstKey × ℤ) :=
  groupCount (pbp.filter (fun p => p.safety)) dstKeyOf

/-- The `fumbles_recovered` table: fumble plays whose first or second
recovery team is the defending team. -/
def fumblesRecoveredTable (pbp : List Play) : List (DstKey × ℤ) :=
  groupCount (pbp.filter (fun p => p.fumble &&
    (decide (p.fumble_recovery_1_team = some p.defteam)
      || decide (p.fumble_recovery_2_team = some p.defteam)))) dstKeyOf

/-- The blocked-kick condition shared by `blocked_kicks` and
`blk_kick_td`. -/
def blockedKickPlay (p : Play) : Bool :=
  p.punt_blocked || decide (p.field_goal_result = some "blocked")
    || decide (p.extra_point_result = some "blocked")

/-- The `blocked_kicks` table. -/
def blockedKicksTable (pbp : List Play) : List (DstKey × ℤ) :=
  groupCount (pbp.filter blockedKickPlay) dstKeyOf

/-- One row of the basic D/ST stat table. -/
structure DstBasicRow where
  key : DstKey
  sacks : ℤ
  interceptions : ℤ
  safeties : ℤ
  fumbles_recovered : ℤ
  blocked_kicks : ℤ
deriving DecidableEq

/-- The join sequence of `calculate_dst_basic_stats` on its success path:
the base key set is the union of the keys of the non-empty component
tables (falling back to all keys of the input when every component is
empty); each component is then left-joined on and null-filled with 0.
This is the row set the source produces only when it does not raise; see
`dst_basic_stats_raises` and `calculate_dst_basic_stats_checked` for the
error path the source takes when a component column was never joined. -/
def calculate_dst_basic_stats (pbp : List Play) : List DstBasicRow :=
  let sacks := sacksTable pbp
  let ints := interceptionsTable pbp
  let safs := safetiesTable pbp
  let fums := fumblesRecoveredTable pbp
  let blks := blockedKicksTable pbp
  let nonempty := [sacks, ints, safs, fums, blks].filter (fun t => decide (t ≠ []))
  let base :=
    if nonempty = [] then (pbp.map dstKeyOf).dedup
    else ((nonempty.map (fun t => t.map Prod.fst)).flatten).dedup
  base.map (fun k =>
    { key := k, sacks := tableLookup sacks k, interceptions := tableLookup ints k,
      safeties := tableLookup safs k, fumbles_recovered := tableLookup fums k,
      blocked_kicks := tableLookup blks k })

/-- The raise condition of `calculate_dst_basic_stats` in the source: the
joins for interceptions, safeties, fumbles recovered and blocked kicks
are each skipped when their component table is empty, so the column never
exists, yet the final `fill_null(0)` block references all five columns
unconditionally — polars then raises ColumnNotFoundError.  (`sacks` alone
has an explicit zero-literal fallback and cannot be missing.) -/
def dst_basic_stats_raises (pbp : List Play) : Prop :=
  interceptionsTable pbp = [] ∨ safetiesTable pbp = []
    ∨ fumblesRecoveredTable pbp = [] ∨ blockedKicksTable pbp = []

/-- Decidability of the raise condition, so witnesses can evaluate it. -/
instance (pbp : List Play) : Decidable (dst_basic_stats_raises pbp) := by
  unfold dst_basic_stats_raises
  infer_instance

/-- `calculate_dst_basic_stats` as the source actually behaves:
`Except.error` models the ColumnNotFoundError raised when any of the four
unconditionally null-filled columns was never joined; otherwise the
zero-defaulted join rows. -/
def calculate_dst_basic_stats_checked (pbp : List Play) :
    Except String (List DstBasicRow) :=
  if dst_basic_stats_raises pbp then Except.error "ColumnNotFoundError"
  else Except.ok (calculate_dst_basic_stats pbp)

/-- The `int_td` table of `calculate_dst_touchdowns`. -/
def intTdTable (pbp : List Play) : List (DstKey × ℤ) :=
  groupCount (pbp.filter (fun p => p.interception && p.return_touchdown
    && decide (p.td_team = p.defteam))) dstKeyOf

/-- The `fum_ret_td` table. -/
def fumRetTdTable (pbp : List Play) : List (DstKey × ℤ) :=
  groupCount (pbp.filter (fun p => p.fumble && p.fumble_lost
    && p.return_touchdown && decide (p.td_team = p.defteam))) dstKeyOf

/-- The `kr_td` table: kickoff returns for touchdowns, grouped by the
return team (renamed into the defteam slot). -/
def krTdTable (pbp : List Play) : List (DstKey × ℤ) :=
  groupCount (pbp.filter (fun p => p.kickoff_attempt && p.return_touchdown))
    (fun p => ⟨p.season, p.week, p.return_team⟩)

/-- The `pr_td` table: punt returns for touchdowns, grouped by the return
team. -/
def prTdTable (pbp : List Play) : List (DstKey × ℤ) :=
  groupCount (pbp.filter (fun p => p.punt_attempt && p.return_touchdown))
    (fun p => ⟨p.season, p.week, p.return_team⟩)

/-- The `blk_kick_td` table: return touchdowns on blocked-kick plays. -/
def blkKickTdTable (pbp : List Play) : List (DstKey × ℤ) :=
  groupCount (pbp.filter (fun p => p.return_touchdown && blockedKickPlay p))
    dstKeyOf

/-- The `two_pt_returns` table. -/
def twoPtReturnsTable (pbp : List Play) : List (DstKey × ℤ) :=
  groupCount (pbp.filter (fun p => p.defensive_two_point_conv)) dstKeyOf

/-- The `one_pt_safeties` table. -/
def onePtSafetiesTable (pbp : List Play) : List (DstKey × ℤ) :=
  groupCount (pbp.filter (fun p => p.defensive_extra_point_conv
    || decide (p.extra_point_result = some "safety"))) dstKeyOf

/-- One row of the D/ST touchdown table. -/
structure DstTdRow where
  key : DstKey
  int_td : ℤ
  fum_ret_td : ℤ
  kr_td : ℤ
  pr_td : ℤ
  blk_kick_td : ℤ
  two_pt_returns : ℤ
  one_pt_safeties : ℤ
deriving DecidableEq

/-- `calculate_dst_touchdowns`: the result starts from the `int_td` table
(or, when it is empty, from all keys of the input with `int_td = 0`) and
outer-joins the six remaining tables, so its key set is the union of the
component key sets; every column is null-filled with 0. -/
def calculate_dst_touchdowns (pbp : List Play) : List DstTdRow :=
  let it := intTdTable pbp
  let frt := fumRetTdTable pbp
  let krt := krTdTable pbp
  let prt := prTdTable pbp
  let bkt := blkKickTdTable pbp
  let tpt := twoPtReturnsTable pbp
  let ops := onePtSafetiesTable pbp
  let base0 := if it = [] then (pbp.map dstKeyOf).dedup else it.map Prod.fst
  let keys := (base0 ++ frt.map Prod.fst ++ krt.map Prod.fst ++ prt.map Prod.fst
    ++ bkt.map Prod.fst ++ tpt.map Prod.fst ++ ops.map Prod.fst).dedup
  keys.map (fun k =>
    { key := k, int_td := tableLookup it k, fum_ret_td := tableLookup frt k,
      kr_td := tableLookup krt k, pr_td := tableLookup prt k,
      blk_kick_td := tableLookup bkt k, two_pt_returns := tableLookup tpt k,
      one_pt_safeties := tableLookup ops k })

/-- polars `max` over a score column of one game's plays (0 on empty,
never reached since every group is non-empty). -/
def maxZ (l : List ℤ) : ℤ :=
  match l with
  | [] => 0
  | x :: rest => rest.foldl max x

/-- The per-game final-score table of `calculate_points_allowed`: group by
(game_id, season, week, home_team, away_team) and take the maximum running
score of each side. -/
def gameScores (pbp : List Play) :
    List ((ℤ × ℤ × String × String × String) × ℤ × ℤ) :=
  let key := fun (p : Play) => (p.season, p.week, p.game_id, p.home_team, p.away_team)
  ((pbp.map key).dedup).map (fun g =>
    let rows := pbp.filter (fun p => decide (key p = g))
    (g, maxZ (rows.map (·.total_home_score)), maxZ (rows.map (·.total_away_score))))

/-- `calculate_points_allowed`: each game contributes the away side's final
score as the home team's points allowed and vice versa; both perspectives
are concatenated. -/
def calculate_points_allowed (pbp : List Play) : List (DstKey × ℤ) :=
  (gameScores pbp).map (fun e =>
    (⟨e.1.1, e.1.2.1, e.1.2.2.2.1⟩, e.2.2))
  ++ (gameScores pbp).map (fun e =>
    (⟨e.1.1, e.1.2.1, e.1.2.2.2.2⟩, e.2.1))

/-- The offensive-play filter of `calculate_yards_allowed`. -/
def isOffensivePlay (p : Play) : Bool :=
  (match p.play_type with
   | some t => decide (t = "run") || decide (t = "pass")
       || decide (t = "qb_kneel") || decide (t = "scramble")
   | none => false)
  || p.rushFlag || p.passFlag

/-- `calculate_yards_allowed`: sum of yards gained on offensive plays,
grouped by the defending team. -/
def calculate_yards_allowed (pbp : List Play) : List (DstKey × ℤ) :=
  groupSum (pbp.filter isOffensivePlay) dstKeyOf (·.yards_gained)

/-- One fully reconciled D/ST stat row: the fourteen canonical columns. -/
structure DstStatRow where
  key : DstKey
  sacks : ℤ
  interceptions : ℤ
  safeties : ℤ
  fumbles_recovered : ℤ
  blocked_kicks : ℤ
  int_td : ℤ
  fum_ret_td : ℤ
  kr_td : ℤ
  pr_td : ℤ
  blk_kick_td : ℤ
  two_pt_returns : ℤ
  one_pt_safeties : ℤ
  points_allowed : ℤ
  yards_allowed : ℤ
deriving DecidableEq

/-- The dict a D/ST row presents to `porchcrew_dst_points`. -/
def DstStatRow.toRow (r : DstStatRow) : Row :=
  [("sacks", (r.sacks : ℚ)), ("blocked_kicks", (r.blocked_kicks : ℚ)),
   ("interceptions", (r.interceptions : ℚ)),
   ("fumbles_recovered", (r.fumbles_recovered : ℚ)),
   ("safeties", (r.safeties : ℚ)), ("int_td", (r.int_td : ℚ)),
   ("fum_ret_td", (r.fum_ret_td : ℚ)), ("kr_td", (r.kr_td : ℚ)),
   ("pr_td", (r.pr_td : ℚ)), ("blk_kick_td", (r.blk_kick_td : ℚ)),
   ("two_pt_returns", (r.two_pt_returns : ℚ)),
   ("one_pt_safeties", (r.one_pt_safeties : ℚ)),
   ("points_allowed", (r.points_allowed : ℚ)),
   ("yards_allowed", (r.yards_allowed : ℚ))]

/-- Lookup with zero default of a column of the basic D/ST stat table. -/
def basicLookup (rows : List DstBasicRow) (k : DstKey)
    (f : DstBasicRow → ℤ) : ℤ :=
  match rows.find? (fun r => decide (r.key = k)) with
  | some r => f r
  | none => 0

/-- Lookup with zero default of a column of the D/ST touchdown table. -/
def tdLookup (rows : List DstTdRow) (k : DstKey) (f : DstTdRow → ℤ) : ℤ :=
  match rows.find? (fun r => decide (r.key = k)) with
  | some r => f r
  | none => 0

/-- The key set of the final D/ST table: `process_dst_stats` starts from
the points-allowed base and outer-joins yards allowed, the basic stats and
the touchdown stats, so the keys are the union of the four key sets. -/
def dstKeys (pbp : List Play) : List DstKey :=
  ((calculate_points_allowed pbp).map Prod.fst
    ++ (calculate_yards_allowed pbp).map Prod.fst
    ++ (calculate_dst_basic_stats pbp).map (·.key)
    ++ (calculate_dst_touchdowns pbp).map (·.key)).dedup

/-- The fully reconciled D/ST stat row for one key: every column is the
zero-defaulted lookup into its component table, per the join-then-
`fill_null(0)`-then-ensure-columns logic of `process_dst_stats`. -/
def mkDstStatRow (pbp : List Play) (k : DstKey) : DstStatRow :=
  let basic := calculate_dst_basic_stats pbp
  let tds := calculate_dst_touchdowns pbp
  { key := k,
    sacks := basicLookup basic k (·.sacks),
    interceptions := basicLookup basic k (·.interceptions),
    safeties := basicLookup basic k (·.safeties),
    fumbles_recovered := basicLookup basic k (·.fumbles_recovered),
    blocked_kicks := basicLookup basic k (·.blocked_kicks),
    int_td := tdLookup tds k (·.int_td),
    fum_ret_td := tdLookup tds k (·.fum_ret_td),
    kr_td := tdLookup tds k (·.kr_td),
    pr_td := tdLookup tds k (·.pr_td),
    blk_kick_td := tdLookup tds k (·.blk_kick_td),
    two_pt_returns := tdLookup tds k (·.two_pt_returns),
    one_pt_safeties := tdLookup tds k (·.one_pt_safeties),
    points_allowed := tableLookup (calculate_points_allowed pbp) k,
    yards_allowed := tableLookup (calculate_yards_allowed pbp) k }

/-- The success-path row set of `process_dst_stats` from
`data_processor.py`: reconcile the four D/ST component tables over the
union of their keys (taking the key-coalescing reading of its
`how="outer"` joins), then score every row with `porchcrew_dst_points`
(no position dispatch) and attach the result as the `fantasy_points`
column.  The source calls `calculate_dst_basic_stats` unconditionally, so
it emits these rows only when that step does not raise; see
`process_dst_stats_checked` for the error path. -/
def process_dst_stats (pbp : List Play) : List (DstStatRow × ℚ) :=
  (dstKeys pbp).map (fun k =>
    (mkDstStatRow pbp k, porchcrew_dst_points (mkDstStatRow pbp k).toRow))

/-- `process_dst_stats` as the source actually behaves: it propagates the
ColumnNotFoundError of `calculate_dst_basic_stats` whenever any of the
four unconditionally null-filled basic defensive categories has zero
qualifying plays, and produces the reconciled scored rows otherwise. -/
def process_dst_stats_checked (pbp : List Play) :
    Except String (List (DstStatRow × ℚ)) :=
  if dst_basic_stats_raises pbp then Except.error "ColumnNotFoundError"
  else Except.ok (process_dst_stats pbp)

/-- The end-to-end example play of the spec (section 8): a single 45-yard
pass touchdown thrown by passer "P" in week 3 of season 2025. -/
def examplePassPlay : Play :=
  { season := 2025, week := 3, game_id := "G1", home_team := "H",
    away_team := "A", posteam := "H", defteam := "A", return_team := "",
    td_team := "H", passFlag := true, rushFlag := false,
    rush_attempt := false, touchdown := true, pass_touchdown := true,
    return_touchdown := false, interception := false, fumble := false,
    fumble_lost := false, sack := false, safety := false,
    punt_blocked := false, kickoff_attempt := false, punt_attempt := false,
    defensive_two_point_conv := false, defensive_extra_point_conv := false,
    field_goal_result := none, extra_point_result := none,
    fumble_recovery_1_team := none, fumble_recovery_2_team := none,
    play_type := some "pass", yards_gained := 45, total_home_score := 6,
    total_away_score := 0, passer_id := some "P", rusher_id := none,
    receiver_id := some "R" }

/-- A concrete weekly stat row used by the witnesses. -/
def exampleStatRow : PStatRow :=
  { season := 2025, week := 3, player_id := "P", position := some "QB",
    stats := [("passing_yards", 45), ("passing_tds", 1)] }

/-! ### Helper lemmas -/

/-- Reading a key different from a freshly added field is unchanged. -/
lemma Row.get_cons_ne (r : Row) (k q : String) (v : ℚ) (h : ¬ q = k) :
    Row.get ((k, v) :: r) q = Row.get r q := by
  have hb : (q == k) = false := beq_eq_false_iff_ne.mpr h
  simp [Row.get, List.lookup, hb]

/-- Same for reads with an explicit default. -/
lemma Row.getF_cons_ne (r : Row) (k q : String) (v d : ℚ) (h : ¬ q = k) :
    Row.getF ((k, v) :: r) q d = Row.getF r q d := by
  have hb : (q == k) = false := beq_eq_false_iff_ne.mpr h
  simp [Row.getF, List.lookup, hb]

/-- Lookup in a singleton row, as a decidable case split on the key. -/
lemma lookup_single (k q : String) (v : ℚ) :
    List.lookup q [(k, v)] = if q = k then some v else none := by
  by_cases h : q = k
  · subst h; simp [List.lookup]
  · have hb : (q == k) = false := beq_eq_false_iff_ne.mpr h
    simp [List.lookup, hb, h]

/-- Filtering with a pointwise-stronger predicate keeps at most as many
elements. -/
lemma filter_length_mono {α : Type} (l : List α) (p q : α → Bool)
    (h : ∀ a, p a = true → q a = true) :
    (l.filter p).length ≤ (l.filter q).length := by
  induction l with
  | nil => simp
  | cons a t ih =>
    by_cases hp : p a
    · simp [List.filter_cons, hp, h a hp]
      omega
    · simp only [List.filter_cons, hp]
      by_cases hq : q a <;> simp [hq] <;> omega

/-! ### C3: kicker formula -/

/-- C3.  Kicker formula correctness: for every kicker stat row the code's
`porchcrew_kicker_points` equals the spec's formula (1 per extra point,
3/4/5/6 per made field goal by band, -1 per miss using the explicit
`fg_missed` total when present, an extra -3 per 0-39-band miss and an
extra -2 per 40-49-band miss, nothing extra for 50+ misses); in
particular one missed 35-yard field goal contributes -4 and one missed
55-yard field goal contributes -1. -/
theorem kicker_formula_correct :
    (∀ row : Row, porchcrew_kicker_points row = spec_kicker_points row)
    ∧ porchcrew_kicker_points [("fg_missed_30_39", 1)] = -4
    ∧ porchcrew_kicker_points [("fg_missed_50_59", 1)] = -1 := by
  refine ⟨fun row => ?_,
    by simp +decide [porchcrew_kicker_points, Row.get, Row.getF, lookup_single]
       try norm_num,
    by simp +decide [porchcrew_kicker_points, Row.get, Row.getF, lookup_single]
       try norm_num⟩
  simp only [porchcrew_kicker_points, spec_kicker_points]
  ring

/-! ### C4: D/ST bucket tables -/

set_option maxHeartbeats 1600000 in
/-- C4.  Bucket correctness on all non-negative integers: the code's
points-allowed and yards-allowed components agree with the spec's bucket
tables everywhere, hence at every boundary value. -/
theorem dst_bucket_tables_correct :
    ∀ n : ℕ, dst_points_allowed_component (n : ℚ) = spec_pa_bucket n
      ∧ dst_yards_allowed_component (n : ℚ) = spec_ya_bucket n := by
  intro n
  have a0 : ((n : ℚ) = 0) ↔ n = 0 := by norm_cast
  have a1 : (1 ≤ (n : ℚ)) ↔ 1 ≤ n := by norm_cast
  have a2 : ((n : ℚ) ≤ 6) ↔ n ≤ 6 := by norm_cast
  have a3 : (7 ≤ (n : ℚ)) ↔ 7 ≤ n := by norm_cast
  have a4 : ((n : ℚ) ≤ 13) ↔ n ≤ 13 := by norm_cast
  have a5 : (14 ≤ (n : ℚ)) ↔ 14 ≤ n := by norm_cast
  have a6 : ((n : ℚ) ≤ 17) ↔ n ≤ 17 := by norm_cast
  have a7 : (18 ≤ (n : ℚ)) ↔ 18 ≤ n := by norm_cast
  have a8 : ((n : ℚ) ≤ 27) ↔ n ≤ 27 := by norm_cast
  have a9 : (28 ≤ (n : ℚ)) ↔ 28 ≤ n := by norm_cast
  have a10 : ((n : ℚ) ≤ 34) ↔ n ≤ 34 := by norm_cast
  have a11 : (35 ≤ (n : ℚ)) ↔ 35 ≤ n := by norm_cast
  have a12 : ((n : ℚ) ≤ 45) ↔ n ≤ 45 := by norm_cast
  have b1 : ((n : ℚ) < 100) ↔ n < 100 := by norm_cast
  have b2 : ((n : ℚ) < 200) ↔ n < 200 := by norm_cast
  have b3 : ((n : ℚ) < 300) ↔ n < 300 := by norm_cast
  have b4 : ((n : ℚ) < 350) ↔ n < 350 := by norm_cast
  have b5 : ((n : ℚ) < 450) ↔ n < 450 := by norm_cast
  have b6 : ((n : ℚ) < 500) ↔ n < 500 := by norm_cast
  have b7 : ((n : ℚ) < 550) ↔ n < 550 := by norm_cast
  constructor
  · simp only [dst_points_allowed_component, spec_pa_bucket, a0, a1, a2, a3,
      a4, a5, a6, a7, a8, a9, a10, a11, a12]
    split_ifs <;> omega
  · simp only [dst_yards_allowed_component, spec_ya_bucket, b1, b2, b3, b4,
      b5, b6, b7]

/-! ### C9: buckets on negative input -/

/-- C9.  Both bucket functions are total; on every negative integer the
points-allowed component falls through every branch to -5 and the
yards-allowed component takes the first branch (< 100) and returns 8. -/
theorem dst_bucket_negative_inputs :
    ∀ z : ℤ, z < 0 →
      dst_points_allowed_component (z : ℚ) = -5
        ∧ dst_yards_allowed_component (z : ℚ) = 8 := by
  intro z hz
  have hq : (z : ℚ) < 0 := by exact_mod_cast hz
  constructor
  · simp only [dst_points_allowed_component]
    split_ifs <;> first | rfl | (exfalso; norm_cast at *; omega)
  · simp only [dst_yards_allowed_component]
    split_ifs <;> first | rfl | (exfalso; norm_cast at *; omega)

/-- Witness for C9 at the concrete input -7. -/
theorem dst_bucket_negative_inputs_witness :
    (-7 : ℤ) < 0 ∧ dst_points_allowed_component ((-7 : ℤ) : ℚ) = -5
      ∧ dst_yards_allowed_component ((-7 : ℤ) : ℚ) = 8 :=
  ⟨by norm_num, (dst_bucket_negative_inputs (-7) (by norm_num)).1,
    (dst_bucket_negative_inputs (-7) (by norm_num)).2⟩

/-! ### C10: threshold-count consistency -/

/-- C10.  For every input column of scored points, the counts returned by
`_calculate_stats_from_df` satisfy nuclear ≤ boom ≤ number of games and
bust ≤ number of games: every game scoring at least 20 also scores at
least 15, and each count ranges over the same rows. -/
theorem threshold_counts_consistent :
    ∀ xs : List ℚ,
      (calculateStatsFromDf xs).nuclear_games ≤ (calculateStatsFromDf xs).boom_games
      ∧ (calculateStatsFromDf xs).boom_games ≤ (calculateStatsFromDf xs).num_games
      ∧ (calculateStatsFromDf xs).bust_games ≤ (calculateStatsFromDf xs).num_games := by
  intro xs
  by_cases h : xs.length = 0
  · simp [calculateStatsFromDf, h, zeroSummaryStats]
  · simp only [calculateStatsFromDf, if_neg h]
    refine ⟨?_, ?_, ?_⟩
    · exact filter_length_mono xs _ _ (fun a ha => by
        simp only [decide_eq_true_eq] at ha ⊢
        linarith)
    · exact le_trans (List.length_filter_le _ _) (le_refl _)
    · exact le_trans (List.length_filter_le _ _) (le_refl _)

/-! ### C7: summary statistics on empty and small windows -/

/-- C7.  Summary statistics never fail on empty or small windows: a window
with zero matching scored rows yields the all-zero statistics dictionary,
and the reported sample standard deviation is zero whenever the window
holds fewer than 2 data points. -/
theorem summary_stats_zero_default :
    ∀ (df : List ScoredEntry) (idv : String) (wl : Option (List ℤ)),
      (summaryWindow df idv wl = [] →
        calculate_summary_stats df idv wl = zeroSummaryStats)
      ∧ (∀ xs : List ℚ, xs.length < 2 →
          (calculateStatsFromDf xs).stddev_sq_points = 0
            ∧ reported_stddev xs = 0) := by
  intro df idv wl
  constructor
  · intro h
    simp [calculate_summary_stats, h, calculateStatsFromDf]
  · intro xs hxs
    have hsq : stddevSq xs = 0 := by simp [stddevSq, sampleVar, hxs]
    refine ⟨?_, ?_⟩
    · by_cases h0 : xs.length = 0
      · simp [calculateStatsFromDf, h0, zeroSummaryStats]
      · simp [calculateStatsFromDf, h0, hsq]
    · simp [reported_stddev, hsq, Real.sqrt_zero]

/-- Witness for C7: an entity with no matching row yields the zero
statistics; a singleton window reports standard deviation zero. -/
theorem summary_stats_zero_default_witness :
    summaryWindow [⟨"A", 1, 5⟩] "B" none = []
    ∧ calculate_summary_stats [⟨"A", 1, 5⟩] "B" none = zeroSummaryStats
    ∧ ([(5 : ℚ)].length < 2)
    ∧ (calculateStatsFromDf [(5 : ℚ)]).stddev_sq_points = 0
    ∧ reported_stddev [(5 : ℚ)] = 0 :=
  ⟨by decide,
    (summary_stats_zero_default [⟨"A", 1, 5⟩] "B" none).1 (by decide),
    by decide,
    ((summary_stats_zero_default [] "" none).2 [(5 : ℚ)] (by decide)).1,
    ((summary_stats_zero_default [] "" none).2 [(5 : ℚ)] (by decide)).2⟩

/-! ### C5: scoring determinism and noninterference -/

/-- C5.  Scoring is deterministic (same row, same score — the functions
are pure and mutate nothing, returning only a point total) and depends
only on the fields the formula reads: adding a field with any other name
to a row leaves every scoring function's result unchanged. -/
theorem scoring_deterministic_noninterfering :
    ∀ (row : Row) (k : String) (v : ℚ),
      (porchcrew_offense_points row = porchcrew_offense_points row
        ∧ porchcrew_kicker_points row = porchcrew_kicker_points row
        ∧ porchcrew_dst_points row = porchcrew_dst_points row)
      ∧ (k ∉ offense_read_keys →
          porchcrew_offense_points ((k, v) :: row) = porchcrew_offense_points row)
      ∧ (k ∉ kicker_read_keys →
          porchcrew_kicker_points ((k, v) :: row) = porchcrew_kicker_points row)
      ∧ (k ∉ dst_read_keys →
          porchcrew_dst_points ((k, v) :: row) = porchcrew_dst_points row) := by
  intro row k v
  refine ⟨⟨rfl, rfl, rfl⟩, ?_, ?_, ?_⟩
  · intro h
    have g : ∀ q, q ∈ offense_read_keys →
        Row.get ((k, v) :: row) q = Row.get row q :=
      fun q hq => Row.get_cons_ne row k q v (fun e => h (e ▸ hq))
    simp only [porchcrew_offense_points]
    rw [g "passing_yards" (by simp [offense_read_keys]),
      g "passing_tds" (by simp [offense_read_keys]),
      g "passing_interceptions" (by simp [offense_read_keys]),
      g "passing_2pt_conversions" (by simp [offense_read_keys]),
      g "pass_td_40p" (by simp [offense_read_keys]),
      g "pass_td_50p" (by simp [offense_read_keys]),
      g "rushing_yards" (by simp [offense_read_keys]),
      g "rushing_tds" (by simp [offense_read_keys]),
      g "rushing_2pt_conversions" (by simp [offense_read_keys]),
      g "rush_td_40p" (by simp [offense_read_keys]),
      g "rush_td_50p" (by simp [offense_read_keys]),
      g "receiving_yards" (by simp [offense_read_keys]),
      g "receptions" (by simp [offense_read_keys]),
      g "receiving_tds" (by simp [offense_read_keys]),
      g "receiving_2pt_conversions" (by simp [offense_read_keys]),
      g "rec_td_40p" (by simp [offense_read_keys]),
      g "rec_td_50p" (by simp [offense_read_keys]),
      g "special_teams_tds" (by simp [offense_read_keys]),
      g "def_tds" (by simp [offense_read_keys]),
      g "fumble_recovery_tds" (by simp [offense_read_keys]),
      g "def_safeties" (by simp [offense_read_keys]),
      g "rushing_fumbles_lost" (by simp [offense_read_keys]),
      g "receiving_fumbles_lost" (by simp [offense_read_keys]),
      g "sack_fumbles_lost" (by simp [offense_read_keys])]
  · intro h
    have g : ∀ q, q ∈ kicker_read_keys →
        Row.get ((k, v) :: row) q = Row.get row q :=
      fun q hq => Row.get_cons_ne row k q v (fun e => h (e ▸ hq))
    have gF : ∀ (q : String) (d d' : ℚ), q ∈ kicker_read_keys → d = d' →
        Row.getF ((k, v) :: row) q d = Row.getF row q d' := by
      intro q d d' hq hd
      rw [hd]
      exact Row.getF_cons_ne row k q v d' (fun e => h (e ▸ hq))
    simp only [porchcrew_kicker_points]
    rw [g "pat_made" (by simp [kicker_read_keys]),
      g "fg_made_0_19" (by simp [kicker_read_keys]),
      g "fg_made_20_29" (by simp [kicker_read_keys]),
      g "fg_made_30_39" (by simp [kicker_read_keys]),
      g "fg_made_40_49" (by simp [kicker_read_keys]),
      g "fg_made_50_59" (by simp [kicker_read_keys]),
      g "fg_made_60_" (by simp [kicker_read_keys]),
      g "fg_missed_0_19" (by simp [kicker_read_keys]),
      g "fg_missed_20_29" (by simp [kicker_read_keys]),
      g "fg_missed_30_39" (by simp [kicker_read_keys]),
      g "fg_missed_40_49" (by simp [kicker_read_keys]),
      g "fg_missed_50_59" (by simp [kicker_read_keys]),
      g "fg_missed_60_" (by simp [kicker_read_keys]),
      gF "fg_missed" _ _ (by simp [kicker_read_keys]) rfl]
  · intro h
    have g : ∀ q, q ∈ dst_read_keys →
        Row.get ((k, v) :: row) q = Row.get row q :=
      fun q hq => Row.get_cons_ne row k q v (fun e => h (e ▸ hq))
    simp only [porchcrew_dst_points]
    rw [g "sacks" (by simp [dst_read_keys]),
      g "blocked_kicks" (by simp [dst_read_keys]),
      g "interceptions" (by simp [dst_read_keys]),
      g "fumbles_recovered" (by simp [dst_read_keys]),
      g "safeties" (by simp [dst_read_keys]),
      g "int_td" (by simp [dst_read_keys]),
      g "fum_ret_td" (by simp [dst_read_keys]),
      g "kr_td" (by simp [dst_read_keys]),
      g "pr_td" (by simp [dst_read_keys]),
      g "blk_kick_td" (by simp [dst_read_keys]),
      g "two_pt_returns" (by simp [dst_read_keys]),
      g "one_pt_safeties" (by simp [dst_read_keys]),
      g "points_allowed" (by simp [dst_read_keys]),
      g "yards_allowed" (by simp [dst_read_keys])]

/-- Witness for C5: adding an unread field to the empty row changes no
scoring function's result. -/
theorem scoring_noninterference_witness :
    ("jersey_number" ∉ offense_read_keys)
    ∧ porchcrew_offense_points [("jersey_number", 7)] = porchcrew_offense_points []
    ∧ ("jersey_number" ∉ kicker_read_keys)
    ∧ porchcrew_kicker_points [("jersey_number", 7)] = porchcrew_kicker_points []
    ∧ ("jersey_number" ∉ dst_read_keys)
    ∧ porchcrew_dst_points [("jersey_number", 7)] = porchcrew_dst_points [] :=
  ⟨by decide,
    (scoring_deterministic_noninterfering [] "jersey_number" 7).2.1 (by decide),
    by decide,
    (scoring_deterministic_noninterfering [] "jersey_number" 7).2.2.1 (by decide),
    by decide,
    (scoring_deterministic_noninterfering [] "jersey_number" 7).2.2.2 (by decide)⟩

/-! ### C6: position dispatch -/

/-- C6.  Position dispatch: the scoring function is chosen from the
upper-cased position code — QB/RB/WR/TE get the offense formula, K gets
the kicker formula, anything else (including a null or empty position)
defaults to the offense formula; rows produced by `process_dst_stats` are
never position-dispatched and are always scored with the D/ST formula. -/
theorem position_dispatch_correct :
    (∀ (p : Option String) (row : Row),
      ((normalizePosition p = "QB" ∨ normalizePosition p = "RB"
          ∨ normalizePosition p = "WR" ∨ normalizePosition p = "TE") →
        calculate_row_points p row = porchcrew_offense_points row)
      ∧ (normalizePosition p = "K" →
          calculate_row_points p row = porchcrew_kicker_points row)
      ∧ (¬(normalizePosition p = "QB" ∨ normalizePosition p = "RB"
            ∨ normalizePosition p = "WR" ∨ normalizePosition p = "TE")
          ∧ normalizePosition p ≠ "K" →
          calculate_row_points p row = porchcrew_offense_points row)
      ∧ ((p = none ∨ p = some "") →
          calculate_row_points p row = porchcrew_offense_points row))
    ∧ (∀ (pbp : List Play) (r : DstStatRow) (fp : ℚ),
        (r, fp) ∈ process_dst_stats pbp →
          fp = porchcrew_dst_points r.toRow) := by
  constructor
  · intro p row
    refine ⟨?_, ?_, ?_, ?_⟩
    · intro h
      simp only [calculate_row_points]
      rw [if_pos h]
    · intro h
      have hn : ¬(normalizePosition p = "QB" ∨ normalizePosition p = "RB"
          ∨ normalizePosition p = "WR" ∨ normalizePosition p = "TE") := by
        rintro (h1 | h1 | h1 | h1) <;> rw [h] at h1 <;> simp at h1
      simp only [calculate_row_points]
      rw [if_neg hn, if_pos h]
    · intro h
      simp only [calculate_row_points]
      rw [if_neg h.1, if_neg h.2]
    · rintro (rfl | rfl) <;> simp [calculate_row_points, normalizePosition]
  · intro pbp r fp hmem
    simp only [process_dst_stats] at hmem
    obtain ⟨kk, _, heq⟩ := List.mem_map.1 hmem
    cases heq
    rfl

/-- Witness for C6: a lower-case "qb" dispatches to the offense formula, a
lower-case "k" to the kicker formula, an unknown "FB" and a missing
position to the offense default, and a concrete D/ST row is scored with
the D/ST formula. -/
theorem position_dispatch_witness :
    (normalizePosition (some "qb") = "QB" ∨ normalizePosition (some "qb") = "RB"
      ∨ normalizePosition (some "qb") = "WR" ∨ normalizePosition (some "qb") = "TE")
    ∧ calculate_row_points (some "qb") [] = porchcrew_offense_points []
    ∧ normalizePosition (some "k") = "K"
    ∧ calculate_row_points (some "k") [] = porchcrew_kicker_points []
    ∧ (¬(normalizePosition (some "FB") = "QB" ∨ normalizePosition (some "FB") = "RB"
          ∨ normalizePosition (some "FB") = "WR" ∨ normalizePosition (some "FB") = "TE")
        ∧ normalizePosition (some "FB") ≠ "K")
    ∧ calculate_row_points (some "FB") [] = porchcrew_offense_points []
    ∧ ((none : Option String) = none ∨ (none : Option String) = some "")
    ∧ calculate_row_points none [] = porchcrew_offense_points []
    ∧ (mkDstStatRow [examplePassPlay] ⟨2025, 3, "A"⟩,
        porchcrew_dst_points (mkDstStatRow [examplePassPlay] ⟨2025, 3, "A"⟩).toRow)
        ∈ process_dst_stats [examplePassPlay]
    ∧ porchcrew_dst_points (mkDstStatRow [examplePassPlay] ⟨2025, 3, "A"⟩).toRow
        = porchcrew_dst_points (mkDstStatRow [examplePassPlay] ⟨2025, 3, "A"⟩).toRow := by
  have hmem : (mkDstStatRow [examplePassPlay] ⟨2025, 3, "A"⟩,
      porchcrew_dst_points (mkDstStatRow [examplePassPlay] ⟨2025, 3, "A"⟩).toRow)
      ∈ process_dst_stats [examplePassPlay] := by
    simp only [process_dst_stats]
    exact List.mem_map.2 ⟨⟨2025, 3, "A"⟩, by decide, rfl⟩
  refine ⟨by decide, ((position_dispatch_correct.1 (some "qb") []).1 (by decide)),
    by decide, ((position_dispatch_correct.1 (some "k") []).2.1 (by decide)),
    by decide, ((position_dispatch_correct.1 (some "FB") []).2.2.1 (by decide)),
    Or.inl rfl, ((position_dispatch_correct.1 none []).2.2.2 (Or.inl rfl)),
    hmem, position_dispatch_correct.2 [examplePassPlay] _ _ hmem⟩

/-! ### C2: long-TD aggregation correctness -/

/-- Summing a 0/1 flag column counts the rows satisfying its condition. -/
lemma sum_ite_flag (l : List Play) (c : Play → Prop) [DecidablePred c] :
    ((l.map (fun p => if c p then (1 : ℤ) else 0)).sum)
      = ((l.filter (fun p => decide (c p))).length : ℤ) := by
  induction l with
  | nil => simp
  | cons a t ih =>
    by_cases h : c a
    · simp [List.filter_cons, h, ih]
      omega
    · simp [List.filter_cons, h, ih]

/-- An entry of a two-column grouped sum table carries exactly the sums of
the two columns over the rows matching its key. -/
lemma groupSum2_mem {κ : Type} [DecidableEq κ] {l : List Play}
    {key : Play → κ} {f g : Play → ℤ} {kk : κ} {a b : ℤ}
    (hx : (kk, a, b) ∈ groupSum2 l key f g) :
    a = ((l.filter (fun p => decide (key p = kk))).map f).sum
    ∧ b = ((l.filter (fun p => decide (key p = kk))).map g).sum := by
  obtain ⟨k, _, heq⟩ := List.mem_map.1 hx
  injection heq with h1 h23
  injection h23 with h2 h3
  subst h1
  subst h2
  subst h3
  exact ⟨rfl, rfl⟩

/-- The flag sum over one key group of a long-TD table counts the plays of
that (season, week, entity) satisfying the flag's condition. -/
lemma long_td_table_count (pbp : List Play) (sel : Play → Option String)
    (flag : Play → ℤ) (cond : Play → Prop) [DecidablePred cond]
    (hflag : ∀ p, flag p = if cond p then (1 : ℤ) else 0)
    (ks kw : ℤ) (kp : String) :
    (((pbp.filter (fun p => (sel p).isSome)).filter
        (fun p => decide ((⟨p.season, p.week, (sel p).getD ""⟩ : PKey)
          = ⟨ks, kw, kp⟩))).map flag).sum
      = ((pbp.filter (fun p => decide (p.season = ks ∧ p.week = kw
          ∧ sel p = some kp ∧ cond p))).length : ℤ) := by
  rw [show flag = (fun p => if cond p then (1 : ℤ) else 0) from funext hflag]
  rw [sum_ite_flag]
  rw [List.filter_filter, List.filter_filter]
  congr 1
  rw [List.filter_congr]
  intro p _
  cases hsel : sel p with
  | none => simp [hsel]
  | some s =>
    by_cases h1 : p.season = ks <;> by_cases h2 : p.week = kw
      <;> by_cases h3 : s = kp <;> by_cases h4 : cond p
      <;> simp_all [PKey.mk.injEq]

/-- C2.  Long-TD aggregation correctness: every entry of the qb/rb/wr
long-TD tables counts exactly the matching-key plays that are pass plays
(resp. rush attempts) marked touchdown gaining at least 40/50 yards, the
receiving counts additionally requiring the passing-touchdown flag and a
non-null receiver; and a single 45-yard pass touchdown by passer P in
week 3 of season 2025 yields pass_td_40p = 1 and pass_td_50p = 0 for
(2025, 3, P). -/
theorem long_td_aggregation_correct :
    (∀ (pbp : List Play) (k : PKey) (v40 v50 : ℤ),
      ((k, v40, v50) ∈ qb_long_tds pbp →
        v40 = ((pbp.filter (fun p => decide (p.season = k.season
            ∧ p.week = k.week ∧ p.passer_id = some k.pid
            ∧ p.passFlag ∧ p.touchdown ∧ 40 ≤ p.yards_gained))).length : ℤ)
        ∧ v50 = ((pbp.filter (fun p => decide (p.season = k.season
            ∧ p.week = k.week ∧ p.passer_id = some k.pid
            ∧ p.passFlag ∧ p.touchdown ∧ 50 ≤ p.yards_gained))).length : ℤ))
      ∧ ((k, v40, v50) ∈ rb_long_tds pbp →
        v40 = ((pbp.filter (fun p => decide (p.season = k.season
            ∧ p.week = k.week ∧ p.rusher_id = some k.pid
            ∧ p.rush_attempt ∧ p.touchdown ∧ 40 ≤ p.yards_gained))).length : ℤ)
        ∧ v50 = ((pbp.filter (fun p => decide (p.season = k.season
            ∧ p.week = k.week ∧ p.rusher_id = some k.pid
            ∧ p.rush_attempt ∧ p.touchdown ∧ 50 ≤ p.yards_gained))).length : ℤ))
      ∧ ((k, v40, v50) ∈ wr_long_tds pbp →
        v40 = ((pbp.filter (fun p => decide (p.season = k.season
            ∧ p.week = k.week ∧ p.receiver_id = some k.pid
            ∧ p.passFlag ∧ p.pass_touchdown ∧ p.receiver_id.isSome
            ∧ 40 ≤ p.yards_gained))).length : ℤ)
        ∧ v50 = ((pbp.filter (fun p => decide (p.season = k.season
            ∧ p.week = k.week ∧ p.receiver_id = some k.pid
            ∧ p.passFlag ∧ p.pass_touchdown ∧ p.receiver_id.isSome
            ∧ 50 ≤ p.yards_gained))).length : ℤ)))
    ∧ qb_long_tds [examplePassPlay] = [(⟨2025, 3, "P"⟩, 1, 0)] := by
  refine ⟨fun pbp k v40 v50 => ⟨?_, ?_, ?_⟩, by decide⟩
  · intro hmem
    obtain ⟨h40, h50⟩ := groupSum2_mem hmem
    constructor
    · rw [h40]
      exact long_td_table_count pbp (fun p => p.passer_id) ptd40_flag _
        (fun p => rfl) k.season k.week k.pid
    · rw [h50]
      exact long_td_table_count pbp (fun p => p.passer_id) ptd50_flag _
        (fun p => rfl) k.season k.week k.pid
  · intro hmem
    obtain ⟨h40, h50⟩ := groupSum2_mem hmem
    constructor
    · rw [h40]
      exact long_td_table_count pbp (fun p => p.rusher_id) rtd40_flag _
        (fun p => rfl) k.season k.week k.pid
    · rw [h50]
      exact long_td_table_count pbp (fun p => p.rusher_id) rtd50_flag _
        (fun p => rfl) k.season k.week k.pid
  · intro hmem
    obtain ⟨h40, h50⟩ := groupSum2_mem hmem
    constructor
    · rw [h40]
      exact long_td_table_count pbp (fun p => p.receiver_id) retd40_flag _
        (fun p => rfl) k.season k.week k.pid
    · rw [h50]
      exact long_td_table_count pbp (fun p => p.receiver_id) retd50_flag _
        (fun p => rfl) k.season k.week k.pid

/-- Witness for C2 at the example play: the aggregated entry (1, 0) for
(2025, 3, P) counts exactly the qualifying plays. -/
theorem long_td_aggregation_witness :
    ((⟨2025, 3, "P"⟩, (1 : ℤ), (0 : ℤ)) ∈ qb_long_tds [examplePassPlay])
    ∧ (1 : ℤ) = (([examplePassPlay].filter (fun p => decide (p.season = 2025
        ∧ p.week = 3 ∧ p.passer_id = some "P"
        ∧ p.passFlag ∧ p.touchdown ∧ 40 ≤ p.yards_gained))).length : ℤ)
    ∧ (0 : ℤ) = (([examplePassPlay].filter (fun p => decide (p.season = 2025
        ∧ p.week = 3 ∧ p.passer_id = some "P"
        ∧ p.passFlag ∧ p.touchdown ∧ 50 ≤ p.yards_gained))).length : ℤ) :=
  ⟨by decide,
    ((long_td_aggregation_correct.1 [examplePassPlay] ⟨2025, 3, "P"⟩ 1 0).1
      (by decide)).1,
    ((long_td_aggregation_correct.1 [examplePassPlay] ⟨2025, 3, "P"⟩ 1 0).1
      (by decide)).2⟩

/-! ### C1: join completeness -/

/-- C1 counterexample.  The claim is false for the player table: a
(season, week, player) key present in a derived long-TD bonus table but
absent from the weekly stat table is dropped by the left join in
`join_stats_with_long_tds`.  Concretely, with the play-by-play stream
holding only the example pass play (so the qb bonus table holds the key
(2025, 3, P)) and an empty weekly stat table, the joined table is empty. -/
theorem join_completeness_counterexample :
    ¬ (∀ (pbp : List Play) (stats : List PStatRow),
        ∀ e ∈ ((calculate_long_td_bonuses pbp).1
            ++ (calculate_long_td_bonuses pbp).2.1
            ++ (calculate_long_td_bonuses pbp).2.2),
          ∃ j ∈ join_stats_with_long_tds stats
              (calculate_long_td_bonuses pbp).1
              (calculate_long_td_bonuses pbp).2.1
              (calculate_long_td_bonuses pbp).2.2,
            j.base.season = e.1.season ∧ j.base.week = e.1.week
              ∧ j.base.player_id = e.1.pid) := by
  intro h
  have h2 := h [examplePassPlay] [] (⟨2025, 3, "P"⟩, 1, 0) (by decide)
  simp [join_stats_with_long_tds] at h2

/-- C1 amended.  Join completeness as the code actually guarantees it:
(1) every key of the weekly stat table appears in the joined player table
with all six bonus columns defined, equal to the bonus-table lookups;
(2) those lookups default to (0, 0) whenever the key is absent from a
bonus table, so absent combinations are zero-defaulted.  Keys present
only in a long-TD bonus table and not in the stat table are dropped by
the left join, per the counterexample.  (3) The D/ST half of the original
claim is not guaranteed either: whenever any of the interceptions,
safeties, fumbles-recovered or blocked-kicks categories has zero
qualifying plays, `calculate_dst_basic_stats` raises ColumnNotFoundError
(its final `fill_null(0)` references columns its skipped joins never
created), so `process_dst_stats` raises too and no D/ST table at all is
produced for that run. -/
theorem join_completeness_amended :
    (∀ (stats : List PStatRow) (qb rb wr : List (PKey × ℤ × ℤ)),
      ∀ s ∈ stats,
        ∃ j ∈ join_stats_with_long_tds stats qb rb wr,
          j.base = s
          ∧ j.pass_td_40p = (bonusLookup qb s.season s.week s.player_id).1
          ∧ j.pass_td_50p = (bonusLookup qb s.season s.week s.player_id).2
          ∧ j.rush_td_40p = (bonusLookup rb s.season s.week s.player_id).1
          ∧ j.rush_td_50p = (bonusLookup rb s.season s.week s.player_id).2
          ∧ j.rec_td_40p = (bonusLookup wr s.season s.week s.player_id).1
          ∧ j.rec_td_50p = (bonusLookup wr s.season s.week s.player_id).2)
    ∧ (∀ (t : List (PKey × ℤ × ℤ)) (season week : ℤ) (pid : String),
        (∀ e ∈ t, e.1 ≠ (⟨season, week, pid⟩ : PKey)) →
          bonusLookup t season week pid = (0, 0))
    ∧ (∀ pbp : List Play, dst_basic_stats_raises pbp →
        calculate_dst_basic_stats_checked pbp
            = Except.error "ColumnNotFoundError"
        ∧ process_dst_stats_checked pbp
            = Except.error "ColumnNotFoundError") := by
  refine ⟨?_, ?_, ?_⟩
  · intro stats qb rb wr s hs
    exact ⟨_, List.mem_map.2 ⟨s, hs, rfl⟩, rfl, rfl, rfl, rfl, rfl, rfl, rfl⟩
  · intro t season week pid h
    have hf : t.find? (fun e => decide (e.1 = (⟨season, week, pid⟩ : PKey)))
        = none := by
      rw [List.find?_eq_none]
      intro x hx
      simp only [decide_eq_true_eq]
      exact h x hx
    simp [bonusLookup, hf]
  · intro pbp h
    constructor
    · simp [calculate_dst_basic_stats_checked, h]
    · simp [process_dst_stats_checked, h]

/-- Witness for the amended C1 at concrete inputs: the example stat row
survives the join with empty bonus tables and gets all-zero bonuses, and
the one-play input (no interceptions, so that component table is empty)
makes the D/ST basic-stats step and hence D/ST processing raise. -/
theorem join_completeness_amended_witness :
    (exampleStatRow ∈ [exampleStatRow])
    ∧ (∃ j ∈ join_stats_with_long_tds [exampleStatRow] [] [] [],
        j.base = exampleStatRow
        ∧ j.pass_td_40p = (bonusLookup [] 2025 3 "P").1
        ∧ j.pass_td_50p = (bonusLookup [] 2025 3 "P").2
        ∧ j.rush_td_40p = (bonusLookup [] 2025 3 "P").1
        ∧ j.rush_td_50p = (bonusLookup [] 2025 3 "P").2
        ∧ j.rec_td_40p = (bonusLookup [] 2025 3 "P").1
        ∧ j.rec_td_50p = (bonusLookup [] 2025 3 "P").2)
    ∧ (∀ e ∈ ([] : List (PKey × ℤ × ℤ)), e.1 ≠ (⟨2025, 3, "P"⟩ : PKey))
    ∧ bonusLookup [] 2025 3 "P" = (0, 0)
    ∧ dst_basic_stats_raises [examplePassPlay]
    ∧ calculate_dst_basic_stats_checked [examplePassPlay]
        = Except.error "ColumnNotFoundError"
    ∧ process_dst_stats_checked [examplePassPlay]
        = Except.error "ColumnNotFoundError" :=
  ⟨List.mem_singleton.2 rfl,
    join_completeness_amended.1 [exampleStatRow] [] [] [] exampleStatRow
      (List.mem_singleton.2 rfl),
    by simp,
    join_completeness_amended.2.1 [] 2025 3 "P" (by simp),
    by decide,
    (join_completeness_amended.2.2 [examplePassPlay] (by decide)).1,
    (join_completeness_amended.2.2 [examplePassPlay] (by decide)).2⟩

end NFLFantasy
